import Mathlib

/- Verification of the KeyCred receipt-to-score pipeline and its dashboard
   frontend. The backend core (document extractor, feature extractor, scorer,
   rent-limit calculator, eligibility gate, result assembler) is modelled from
   the specification; the frontend handlers are embedded from
   frontend/src/App.jsx. -/

namespace KeyCred

/-- Modelled from the spec: transaction categories used by the Feature
Extractor classifier (salary-like, transfer, bill-payment, bounced item).
The backend Feature Extractor is not in the repository. -/
inductive TxKind where
  | salary
  | transfer
  | billPayment
  | bounced
deriving DecidableEq, Repr

/-- Modelled from the spec: one successfully parsed financial line of a
receipt: a monetary amount, a credit/debit direction indicator, and a
deterministic classification. -/
structure TxLine where
  amount : Nat
  isCredit : Bool
  kind : TxKind
deriving DecidableEq, Repr

/-- Modelled from the spec: an extracted page, a 1-based ordered index plus
the financial lines recovered from the page (unparsable lines are excluded,
so an image-only page simply has an empty line list). -/
structure ExtractedPage where
  pageIndex : Nat
  lines : List TxLine
deriving DecidableEq, Repr

/-- Modelled from the spec: the flat record of extracted financial signals.
Absence of a signal is explicit (Option none), never coerced to zero. -/
structure FinancialFeatures where
  totalIncomeDeposits : Option Nat
  avgMonthlyIncome : Option Nat
  stableIncome : Option Nat
  salaryTxCount : Nat
  totalTxCount : Nat
  minBalance : Option Nat
  endingBalance : Option Nat
  bouncedCount : Nat
deriving DecidableEq, Repr

/-- Modelled from the spec: the core input, raw bytes plus declared media
type plus caller-supplied tenant id and caller-assigned receipt id. -/
structure RawDocument where
  bytes : List Nat
  mediaType : String
  tenantId : Nat
  receiptId : Nat
deriving DecidableEq, Repr

/-- Modelled from the spec: terminal status of a decision record. -/
inductive Status where
  | completed
  | failed
deriving DecidableEq, Repr

/-- Modelled from the spec: the final decision record returned to callers. -/
structure DecisionRecord where
  tenant_id : Nat
  receipt_id : Nat
  score : Nat
  max_rent_limit : Nat
  pages_parsed : Nat
  is_approved : Bool
  status : Status
deriving DecidableEq, Repr

/-- Modelled from the spec: the single fatal error of the core. -/
inductive PipelineError where
  | unreadableDocument
deriving DecidableEq, Repr

/-- Modelled from the spec: the PDF header magic bytes checked by the
Document Extractor (a corrupt header makes the document unreadable). -/
def PDF_HEADER : List Nat := [37, 80, 68, 70]

/-- Splits a byte list on a separator byte; always returns at least one
(possibly empty) chunk. -/
def splitOnSep (sep : Nat) : List Nat → List (List Nat)
  | [] => [[]]
  | b :: bs =>
    let r := splitOnSep sep bs
    if b = sep then [] :: r
    else
      match r with
      | [] => [[b]]
      | g :: gs => (b :: g) :: gs

/-- Modelled from the spec: currency parsing; a value that fails to parse is
excluded from aggregates. Amounts are decimal digit sequences; a non-digit
byte makes the amount unparsable. -/
def parseAmount (ds : List Nat) : Option Nat :=
  if ds.isEmpty then none
  else
    ds.foldl
      (fun acc d =>
        match acc with
        | none => none
        | some n => if d ≤ 9 then some (n * 10 + d) else none)
      (some 0)

/-- Modelled from the spec: deterministic classification of a line by a fixed
precedence order among pattern codes. -/
def kindOfCode (k : Nat) : Option TxKind :=
  if k = 0 then some TxKind.salary
  else if k = 1 then some TxKind.transfer
  else if k = 2 then some TxKind.billPayment
  else if k = 3 then some TxKind.bounced
  else none

/-- Modelled from the spec: parsing one receipt line into a classified
transaction: a category code, a direction indicator, then the amount digits.
Malformed lines yield none and are excluded from aggregates. -/
def parseLine (l : List Nat) : Option TxLine :=
  match l with
  | k :: c :: rest =>
    match kindOfCode k, parseAmount rest with
    | some kind, some amt =>
      if c ≤ 1 then some { amount := amt, isCredit := c == 1, kind := kind }
      else none
    | _, _ => none
  | _ => none

/-- Modelled from the spec: the financial lines of one page, newline
separated; unparsable lines are dropped rather than failing the page. -/
def parsePageLines (pb : List Nat) : List TxLine :=
  (splitOnSep 10 pb).filterMap parseLine

/-- Modelled from the spec: the ordered page sequence of a document body,
pages separated by a form-feed byte, indices 1-based in physical order. -/
def pagesOf (body : List Nat) : List ExtractedPage :=
  (splitOnSep 12 body).enum.map
    (fun p => { pageIndex := p.1 + 1, lines := parsePageLines p.2 })

/-- Modelled from the spec: the Document Extractor parse. It fails (none)
when the header is corrupt or the document has zero pages; otherwise it
yields the ordered page sequence, tolerating pages with no parsable lines. -/
def parsePdf (bytes : List Nat) : Option (List ExtractedPage) :=
  if PDF_HEADER.isPrefixOf bytes then
    let body := bytes.drop PDF_HEADER.length
    if body.isEmpty then none else some (pagesOf body)
  else none

/-- Modelled from the spec: the Document Extractor contract; an unparsable
byte stream fails with UnreadableDocument, the only fatal path. -/
def extractDocument (d : RawDocument) : Except PipelineError (List ExtractedPage) :=
  match parsePdf d.bytes with
  | none => Except.error PipelineError.unreadableDocument
  | some pages => Except.ok pages

/-- Sum of the amounts of a list of transactions. -/
def sumAmounts (ls : List TxLine) : Nat :=
  ls.foldl (fun acc l => acc + l.amount) 0

/-- Modelled from the spec: running ending balance across the observed
transactions (credits add, debits subtract, floored at zero so all numeric
features stay non-negative). -/
def endBal (ls : List TxLine) : Nat :=
  ls.foldl (fun b l => if l.isCredit then b + l.amount else b - l.amount) 0

/-- Modelled from the spec: minimum balance observed along the running
balance trajectory, starting from zero. -/
def minBal (ls : List TxLine) : Nat :=
  (ls.foldl
    (fun (st : Nat × Nat) l =>
      let b := if l.isCredit then st.1 + l.amount else st.1 - l.amount
      (b, min st.2 b))
    (0, 0)).2

/-- Modelled from the spec: the Feature Extractor; aggregates all pages into
one FinancialFeatures record, with income signals explicitly absent when no
matching lines were detected anywhere in the document. -/
def featureExtract (pages : List ExtractedPage) : FinancialFeatures :=
  let ls := pages.foldr (fun p acc => p.lines ++ acc) []
  let credits := ls.filter (fun l => l.isCredit)
  let sal := credits.filter (fun l => l.kind == TxKind.salary)
  let bounced := ls.filter (fun l => l.kind == TxKind.bounced)
  { totalIncomeDeposits := if credits.isEmpty then none else some (sumAmounts credits)
    avgMonthlyIncome :=
      if sal.isEmpty then none else some (sumAmounts sal / sal.length)
    stableIncome :=
      match sal with
      | [] => none
      | l :: rest => some (rest.foldl (fun m x => min m x.amount) l.amount)
    salaryTxCount := sal.length
    totalTxCount := ls.length
    minBalance := if ls.isEmpty then none else some (minBal ls)
    endingBalance := if ls.isEmpty then none else some (endBal ls)
    bouncedCount := bounced.length }

/-- Modelled from the spec: the fixed baseline score, neutral insufficient
evidence. -/
def BASELINE : Int := 500

/-- Modelled from the spec: the named approval threshold of the Eligibility
Gate, a policy constant independent of the scoring math. -/
def APPROVAL_THRESHOLD : Nat := 650

/-- Modelled from the spec: income-presence bonus rule. -/
def ruleIncomePresence (f : FinancialFeatures) : Int :=
  if f.totalIncomeDeposits.isSome || f.avgMonthlyIncome.isSome || f.stableIncome.isSome
  then 80 else 0

/-- Modelled from the spec: income-stability bonus, proportional to the
detected stable income, capped. -/
def ruleIncomeStability (f : FinancialFeatures) : Int :=
  match f.stableIncome with
  | none => 0
  | some v => min ((v : Int) / 500) 120

/-- Modelled from the spec: transaction-volume bonus with diminishing
returns above a cap. -/
def ruleTxVolume (f : FinancialFeatures) : Int :=
  min ((f.totalTxCount : Int) * 2) 60

/-- Modelled from the spec: balance-health bonus or penalty. -/
def ruleBalanceHealth (f : FinancialFeatures) : Int :=
  match f.endingBalance with
  | none => 0
  | some b => if 10000 ≤ b then 40 else if 1000 ≤ b then 10 else -20

/-- Modelled from the spec: bounced-item penalty, a fixed penalty per
occurrence, itself capped so the total stays bounded. -/
def ruleBouncedPenalty (f : FinancialFeatures) : Int :=
  -(min ((f.bouncedCount : Int) * 50) 150)

/-- Modelled from the spec: the ScoreBreakdown, an ordered list of named
signed contributions, one per rule. -/
def scoreBreakdown (f : FinancialFeatures) : List (String × Int) :=
  [("income_presence", ruleIncomePresence f),
   ("income_stability", ruleIncomeStability f),
   ("tx_volume", ruleTxVolume f),
   ("balance_health", ruleBalanceHealth f),
   ("bounced_penalty", ruleBouncedPenalty f)]

/-- Sum of the contributions of a breakdown. -/
def contributionSum (f : FinancialFeatures) : Int :=
  (scoreBreakdown f).foldl (fun acc p => acc + p.2) 0

/-- Modelled from the spec: clamping of the raw score into the interval
from 0 to 1000. -/
def clampScore (x : Int) : Nat := (max 0 (min 1000 x)).toNat

/-- Modelled from the spec: the Rule-Based Scorer; final score equals the
clamp of baseline plus the sum of rule contributions. -/
def computeScore (f : FinancialFeatures) : Nat :=
  clampScore (BASELINE + (ruleIncomePresence f + ruleIncomeStability f +
    ruleTxVolume f + ruleBalanceHealth f + ruleBouncedPenalty f))

/-- Modelled from the spec: the confidence multiplier of the Rent-Limit
Calculator, in percent; it decreases as the score decreases. -/
def rentMultiplier (score : Nat) : Nat := 10 + score / 20

/-- Modelled from the spec: the stable-income signal the Rent-Limit
Calculator reads, preferring the detected stable income; none when all
income signals are absent. -/
def incomeSignal (f : FinancialFeatures) : Option Nat :=
  match f.stableIncome with
  | some v => some v
  | none =>
    match f.avgMonthlyIncome with
    | some v => some v
    | none => f.totalIncomeDeposits

/-- Modelled from the spec: the Rent-Limit Calculator; proportional to the
detected income signal, scaled by the score-dependent multiplier, with a
floor of zero when no income signal exists regardless of score. -/
def maxRentLimit (score : Nat) (f : FinancialFeatures) : Nat :=
  match incomeSignal f with
  | none => 0
  | some inc => inc * rentMultiplier score / 100

/-- Modelled from the spec: the Eligibility Gate, a pure predicate. -/
def isApproved (st : Status) (score : Nat) : Bool :=
  (st == Status.completed) && decide (APPROVAL_THRESHOLD ≤ score)

/-- Modelled from the spec: the failed record produced on the short-circuit
path of the Result Assembler. -/
def failedRecord (tid rid : Nat) : DecisionRecord :=
  { tenant_id := tid, receipt_id := rid, score := 0, max_rent_limit := 0,
    pages_parsed := 0, is_approved := false, status := Status.failed }

/-- Modelled from the spec: the completed record assembled from the feature
record of a successfully extracted document. -/
def completedRecord (tid rid npages : Nat) (f : FinancialFeatures) : DecisionRecord :=
  let s := computeScore f
  { tenant_id := tid, receipt_id := rid, score := s,
    max_rent_limit := maxRentLimit s f, pages_parsed := npages,
    is_approved := isApproved Status.completed s, status := Status.completed }

/-- Modelled from the spec: the core pipeline, extractor through result
assembler, with the UnreadableDocument short-circuit. -/
def coreProcess (d : RawDocument) : DecisionRecord :=
  match extractDocument d with
  | Except.error _ => failedRecord d.tenantId d.receiptId
  | Except.ok pages =>
    completedRecord d.tenantId d.receiptId pages.length (featureExtract pages)

/-- Modelled from the spec: the upload-boundary media-type invariant; a
declared media type other than PDF is rejected before extraction. -/
def acceptUpload (d : RawDocument) : Bool := d.mediaType == "application/pdf"

/-- Modelled from the spec: the full entry point; a rejected media type
never reaches the core. -/
def pipelineEntry (d : RawDocument) : Option DecisionRecord :=
  if acceptUpload d then some (coreProcess d) else none

end KeyCred

namespace Frontend

/-- A file offered for upload, with name, declared type and size, as read by
the handlers in App.jsx. -/
structure FileInfo where
  name : String
  fileType : String
  size : Nat
deriving DecidableEq, Repr

/-- The result object rendered by the score card in App.jsx. -/
structure ResultData where
  tenant_id : Nat
  receipt_id : Nat
  keycred_score : Nat
  max_rent_limit : Nat
  pages_parsed : Nat
  status : String
  is_approved : Bool
deriving DecidableEq, Repr

/-- The component state of App in App.jsx: file, dragging, uploading,
result, error, certLoading. -/
structure UIState where
  file : Option FileInfo
  dragging : Bool
  uploading : Bool
  result : Option ResultData
  error : Option String
  certLoading : Bool
deriving DecidableEq, Repr

/-- The initial component state of App. -/
def initState : UIState :=
  { file := none, dragging := false, uploading := false, result := none,
    error := none, certLoading := false }

/-- The onDrop handler: accepts the dropped file only when its type is
application/pdf, otherwise sets an error and leaves the file unchanged. -/
def onDrop (dropped : Option FileInfo) (s : UIState) : UIState :=
  let s1 := { s with dragging := false }
  match dropped with
  | some f =>
    if f.fileType = "application/pdf"
    then { s1 with file := some f, error := none }
    else { s1 with error := some "Please drop a valid PDF file." }
  | none => { s1 with error := some "Please drop a valid PDF file." }

/-- The onFileChange handler: accepts any chosen file without checking its
type; does nothing when no file was chosen. -/
def onFileChange (chosen : Option FileInfo) (s : UIState) : UIState :=
  match chosen with
  | some f => { s with file := some f, error := none }
  | none => s

/-- The synchronous start of handleUpload: returns the new state and whether
a network request is issued; with no file selected it returns immediately. -/
def handleUploadStart (s : UIState) : UIState × Bool :=
  match s.file with
  | none => (s, false)
  | some _ => ({ s with uploading := true, error := none, result := none }, true)

/-- The synchronous start of handleCertificate: returns the new state and
whether a request is issued; with no file selected it returns immediately. -/
def handleCertificateStart (s : UIState) : UIState × Bool :=
  match s.file with
  | none => (s, false)
  | some _ => ({ s with certLoading := true }, true)

/-- The disabled condition of the upload button in App.jsx. -/
def uploadDisabled (s : UIState) : Bool := s.file.isNone || s.uploading

/-- Whether the certificate download button is rendered: only when a result
is displayed and it is approved. -/
def certButtonShown (res : Option ResultData) : Bool :=
  match res with
  | none => false
  | some r => r.is_approved

/-- Whether the 650-threshold notice is rendered: only when a result is
displayed and it is not approved. -/
def thresholdNoticeShown (res : Option ResultData) : Bool :=
  match res with
  | none => false
  | some r => !r.is_approved

/-- Whether a certificate request is initiated: the button must be rendered
and handleCertificate must pass its file guard. -/
def certRequestInitiated (s : UIState) : Bool :=
  certButtonShown s.result && (handleCertificateStart s).2

/-- The color of the score ring and score card accents in App.jsx,
breakpoints at 750 and 600. -/
def ringColor (score : Nat) : String :=
  if 750 ≤ score then "#34d399"
  else if 600 ≤ score then "#fbbf24"
  else "#f87171"

/-- The rating badge text in App.jsx, breakpoints at 750 and 600. -/
def ratingBadge (score : Nat) : String :=
  if 750 ≤ score then "🌟 Excellent Creditworthiness"
  else if 600 ≤ score then "👍 Good Creditworthiness"
  else "⚠️ Needs Improvement"

/-- The scoreColor value in App.jsx: indigo with no result, otherwise the
ring color of the displayed score. -/
def scoreColorOf (res : Option ResultData) : String :=
  match res with
  | none => "#6366f1"
  | some r => ringColor r.keycred_score

end Frontend

/-- A PDF file input used to instantiate theorems. -/
def pdfFile : Frontend.FileInfo :=
  { name := "receipt.pdf", fileType := "application/pdf", size := 2048 }

/-- A non-PDF file input used to instantiate theorems. -/
def txtFile : Frontend.FileInfo :=
  { name := "notes.txt", fileType := "text/plain", size := 64 }

/-- An approved result used to instantiate theorems. -/
def approvedResult : Frontend.ResultData :=
  { tenant_id := 1, receipt_id := 1, keycred_score := 802,
    max_rent_limit := 26700, pages_parsed := 1, status := "completed",
    is_approved := true }

/-- An unapproved result used to instantiate theorems. -/
def rejectedResult : Frontend.ResultData :=
  { tenant_id := 1, receipt_id := 2, keycred_score := 620,
    max_rent_limit := 0, pages_parsed := 1, status := "completed",
    is_approved := false }

/-- A UI state displaying an approved result. -/
def stApproved : Frontend.UIState :=
  { Frontend.initState with file := some pdfFile, result := some approvedResult }

/-- A UI state displaying an unapproved result. -/
def stRejected : Frontend.UIState :=
  { Frontend.initState with file := some pdfFile, result := some rejectedResult }

/-- A parseable one-page document used to instantiate theorems. -/
def validDoc : KeyCred.RawDocument :=
  { bytes := [37, 80, 68, 70, 0, 1, 5], mediaType := "application/pdf",
    tenantId := 1, receiptId := 1 }

/-- The page sequence extracted from validDoc. -/
def validDocPages : List KeyCred.ExtractedPage :=
  [{ pageIndex := 1,
     lines := [{ amount := 5, isCredit := true, kind := KeyCred.TxKind.salary }] }]

/-- A byte blob that is not a parseable PDF, declared as PDF. -/
def corruptDoc : KeyCred.RawDocument :=
  { bytes := [1, 2, 3], mediaType := "application/pdf", tenantId := 2, receiptId := 9 }

/-- A parseable document with a non-PDF declared media type. -/
def badMediaDoc : KeyCred.RawDocument :=
  { bytes := [37, 80, 68, 70, 0, 1, 5], mediaType := "text/plain",
    tenantId := 1, receiptId := 1 }

/-- A feature record with every income signal absent. -/
def noIncomeFeatures : KeyCred.FinancialFeatures :=
  { totalIncomeDeposits := none, avgMonthlyIncome := none, stableIncome := none,
    salaryTxCount := 0, totalTxCount := 7, minBalance := some 0,
    endingBalance := some 150, bouncedCount := 2 }

/-- A feature record with a detected stable income. -/
def stableFeatures : KeyCred.FinancialFeatures :=
  { totalIncomeDeposits := some 60000, avgMonthlyIncome := some 60000,
    stableIncome := some 60000, salaryTxCount := 3, totalTxCount := 10,
    minBalance := some 0, endingBalance := some 20000, bouncedCount := 0 }

lemma contributionSum_eq (f : KeyCred.FinancialFeatures) :
    KeyCred.contributionSum f =
      KeyCred.ruleIncomePresence f + KeyCred.ruleIncomeStability f +
      KeyCred.ruleTxVolume f + KeyCred.ruleBalanceHealth f +
      KeyCred.ruleBouncedPenalty f := by
  simp [KeyCred.contributionSum, KeyCred.scoreBreakdown]

lemma clampScore_le (x : Int) : KeyCred.clampScore x ≤ 1000 := by
  unfold KeyCred.clampScore
  have h : max 0 (min 1000 x) ≤ (1000 : Int) :=
    max_le (by norm_num) (min_le_left _ _)
  exact Int.toNat_le_toNat h

lemma clampScore_mono {x y : Int} (h : x ≤ y) :
    KeyCred.clampScore x ≤ KeyCred.clampScore y := by
  unfold KeyCred.clampScore
  exact Int.toNat_le_toNat (max_le_max (le_refl 0) (min_le_min (le_refl 1000) h))

lemma ruleIncomeStability_mono (f : KeyCred.FinancialFeatures) (a b : Nat)
    (hs : f.stableIncome = some a) (hab : a ≤ b) :
    KeyCred.ruleIncomeStability f ≤
      KeyCred.ruleIncomeStability { f with stableIncome := some b } := by
  have hL : KeyCred.ruleIncomeStability f = min ((a : Int) / 500) 120 := by
    unfold KeyCred.ruleIncomeStability
    rw [hs]
  have hR : KeyCred.ruleIncomeStability { f with stableIncome := some b } =
      min ((b : Int) / 500) 120 := rfl
  rw [hL, hR]
  exact min_le_min (Int.ediv_le_ediv (by norm_num) (by exact_mod_cast hab)) (le_refl 120)

lemma score_mono_stable (f : KeyCred.FinancialFeatures) (a b : Nat)
    (hs : f.stableIncome = some a) (hab : a ≤ b) :
    KeyCred.computeScore f ≤ KeyCred.computeScore { f with stableIncome := some b } := by
  unfold KeyCred.computeScore
  apply clampScore_mono
  have h2 := ruleIncomeStability_mono f a b hs hab
  have e1 : KeyCred.ruleIncomePresence { f with stableIncome := some b } =
      KeyCred.ruleIncomePresence f := by
    simp [KeyCred.ruleIncomePresence, hs]
  have e3 : KeyCred.ruleTxVolume { f with stableIncome := some b } =
      KeyCred.ruleTxVolume f := rfl
  have e4 : KeyCred.ruleBalanceHealth { f with stableIncome := some b } =
      KeyCred.ruleBalanceHealth f := rfl
  have e5 : KeyCred.ruleBouncedPenalty { f with stableIncome := some b } =
      KeyCred.ruleBouncedPenalty f := rfl
  rw [e1, e3, e4, e5]
  linarith [h2]

lemma maxRentLimit_mono (f : KeyCred.FinancialFeatures) (a b s t : Nat)
    (hs : f.stableIncome = some a) (hab : a ≤ b) (hst : s ≤ t) :
    KeyCred.maxRentLimit s f ≤
      KeyCred.maxRentLimit t { f with stableIncome := some b } := by
  simp [KeyCred.maxRentLimit, KeyCred.incomeSignal, hs]
  apply Nat.div_le_div_right
  apply Nat.mul_le_mul hab
  unfold KeyCred.rentMultiplier
  exact Nat.add_le_add_left (Nat.div_le_div_right hst) 10

/-- C1: For every DecisionRecord produced by the pipeline, and over all
feature inputs handed to the Result Assembler, is_approved is true if and
only if status equals completed and the score is at least
APPROVAL_THRESHOLD (650). -/
theorem approval_iff_completed_and_threshold :
    (∀ (tid rid npages : Nat) (f : KeyCred.FinancialFeatures),
      (KeyCred.completedRecord tid rid npages f).is_approved = true ↔
        ((KeyCred.completedRecord tid rid npages f).status = KeyCred.Status.completed ∧
          KeyCred.APPROVAL_THRESHOLD ≤ (KeyCred.completedRecord tid rid npages f).score)) ∧
    (∀ d : KeyCred.RawDocument,
      (KeyCred.coreProcess d).is_approved = true ↔
        ((KeyCred.coreProcess d).status = KeyCred.Status.completed ∧
          KeyCred.APPROVAL_THRESHOLD ≤ (KeyCred.coreProcess d).score)) := by
  constructor
  · intro tid rid npages f
    simp [KeyCred.completedRecord, KeyCred.isApproved]
  · intro d
    cases h : KeyCred.extractDocument d with
    | error e =>
      simp [KeyCred.coreProcess, h, KeyCred.failedRecord]
    | ok pages =>
      simp [KeyCred.coreProcess, h, KeyCred.completedRecord, KeyCred.isApproved]

/-- C2: For every valid document, the final score equals the clamp of
baseline plus the sum of rule contributions into the interval from 0 to
1000, the score is at most 1000, and the rent limit is non-negative. -/
theorem valid_document_score_bounds (d : KeyCred.RawDocument)
    (pages : List KeyCred.ExtractedPage)
    (h : KeyCred.parsePdf d.bytes = some pages) :
    (KeyCred.coreProcess d).score =
      KeyCred.clampScore (KeyCred.BASELINE +
        KeyCred.contributionSum (KeyCred.featureExtract pages)) ∧
    (KeyCred.coreProcess d).score ≤ 1000 ∧
    0 ≤ (KeyCred.coreProcess d).max_rent_limit := by
  have he : KeyCred.extractDocument d = Except.ok pages := by
    simp [KeyCred.extractDocument, h]
  have hs : (KeyCred.coreProcess d).score =
      KeyCred.computeScore (KeyCred.featureExtract pages) := by
    simp [KeyCred.coreProcess, he, KeyCred.completedRecord]
  refine ⟨?_, ?_, Nat.zero_le _⟩
  · rw [hs]
    unfold KeyCred.computeScore
    rw [contributionSum_eq]
  · rw [hs]
    exact clampScore_le _

/-- Witness for C2 at a concrete parseable one-page document. -/
theorem valid_document_score_bounds_witness :
    KeyCred.parsePdf validDoc.bytes = some validDocPages ∧
    ((KeyCred.coreProcess validDoc).score =
        KeyCred.clampScore (KeyCred.BASELINE +
          KeyCred.contributionSum (KeyCred.featureExtract validDocPages)) ∧
      (KeyCred.coreProcess validDoc).score ≤ 1000 ∧
      0 ≤ (KeyCred.coreProcess validDoc).max_rent_limit) :=
  ⟨by decide, valid_document_score_bounds validDoc validDocPages (by decide)⟩

/-- C3: Every input whose byte stream is not a parseable PDF makes the
Document Extractor fail with UnreadableDocument, and the pipeline
short-circuits to the failed record: status failed, score 0, rent limit 0,
not approved, zero pages parsed. -/
theorem unreadable_short_circuit (d : KeyCred.RawDocument)
    (h : KeyCred.parsePdf d.bytes = none) :
    KeyCred.extractDocument d =
      Except.error KeyCred.PipelineError.unreadableDocument ∧
    KeyCred.coreProcess d = KeyCred.failedRecord d.tenantId d.receiptId ∧
    (KeyCred.coreProcess d).status = KeyCred.Status.failed ∧
    (KeyCred.coreProcess d).score = 0 ∧
    (KeyCred.coreProcess d).max_rent_limit = 0 ∧
    (KeyCred.coreProcess d).is_approved = false ∧
    (KeyCred.coreProcess d).pages_parsed = 0 := by
  have he : KeyCred.extractDocument d =
      Except.error KeyCred.PipelineError.unreadableDocument := by
    simp [KeyCred.extractDocument, h]
  have hc : KeyCred.coreProcess d = KeyCred.failedRecord d.tenantId d.receiptId := by
    simp [KeyCred.coreProcess, he]
  exact ⟨he, hc, by rw [hc]; rfl, by rw [hc]; rfl, by rw [hc]; rfl,
    by rw [hc]; rfl, by rw [hc]; rfl⟩

/-- Witness for C3 at a concrete non-PDF byte blob declared as PDF. -/
theorem unreadable_short_circuit_witness :
    KeyCred.extractDocument corruptDoc =
      Except.error KeyCred.PipelineError.unreadableDocument ∧
    KeyCred.coreProcess corruptDoc =
      KeyCred.failedRecord corruptDoc.tenantId corruptDoc.receiptId ∧
    (KeyCred.coreProcess corruptDoc).status = KeyCred.Status.failed ∧
    (KeyCred.coreProcess corruptDoc).score = 0 ∧
    (KeyCred.coreProcess corruptDoc).max_rent_limit = 0 ∧
    (KeyCred.coreProcess corruptDoc).is_approved = false ∧
    (KeyCred.coreProcess corruptDoc).pages_parsed = 0 :=
  unreadable_short_circuit corruptDoc (by decide)

/-- C4: The pipeline is deterministic: two runs on byte-identical input,
with the same media type, tenant id and receipt id, yield DecisionRecords
with identical fields. -/
theorem pipeline_deterministic (d1 d2 : KeyCred.RawDocument)
    (hb : d1.bytes = d2.bytes) (hm : d1.mediaType = d2.mediaType)
    (ht : d1.tenantId = d2.tenantId) (hr : d1.receiptId = d2.receiptId) :
    KeyCred.coreProcess d1 = KeyCred.coreProcess d2 ∧
    (KeyCred.coreProcess d1).tenant_id = (KeyCred.coreProcess d2).tenant_id ∧
    (KeyCred.coreProcess d1).receipt_id = (KeyCred.coreProcess d2).receipt_id ∧
    (KeyCred.coreProcess d1).score = (KeyCred.coreProcess d2).score ∧
    (KeyCred.coreProcess d1).max_rent_limit = (KeyCred.coreProcess d2).max_rent_limit ∧
    (KeyCred.coreProcess d1).pages_parsed = (KeyCred.coreProcess d2).pages_parsed ∧
    (KeyCred.coreProcess d1).is_approved = (KeyCred.coreProcess d2).is_approved ∧
    (KeyCred.coreProcess d1).status = (KeyCred.coreProcess d2).status := by
  have hd : d1 = d2 := by
    cases d1
    cases d2
    simp_all
  rw [hd]
  exact ⟨rfl, rfl, rfl, rfl, rfl, rfl, rfl, rfl⟩

/-- Witness for C4 at a concrete document compared with itself. -/
theorem pipeline_deterministic_witness :
    KeyCred.coreProcess validDoc = KeyCred.coreProcess validDoc ∧
    (KeyCred.coreProcess validDoc).tenant_id = (KeyCred.coreProcess validDoc).tenant_id ∧
    (KeyCred.coreProcess validDoc).receipt_id = (KeyCred.coreProcess validDoc).receipt_id ∧
    (KeyCred.coreProcess validDoc).score = (KeyCred.coreProcess validDoc).score ∧
    (KeyCred.coreProcess validDoc).max_rent_limit = (KeyCred.coreProcess validDoc).max_rent_limit ∧
    (KeyCred.coreProcess validDoc).pages_parsed = (KeyCred.coreProcess validDoc).pages_parsed ∧
    (KeyCred.coreProcess validDoc).is_approved = (KeyCred.coreProcess validDoc).is_approved ∧
    (KeyCred.coreProcess validDoc).status = (KeyCred.coreProcess validDoc).status :=
  pipeline_deterministic validDoc validDoc rfl rfl rfl rfl

/-- C5: For every feature record in which all income signals are absent, the
Rent-Limit Calculator returns zero regardless of the score. -/
theorem zero_income_zero_rent (s : Nat) (f : KeyCred.FinancialFeatures)
    (h1 : f.totalIncomeDeposits = none) (h2 : f.avgMonthlyIncome = none)
    (h3 : f.stableIncome = none) :
    KeyCred.maxRentLimit s f = 0 := by
  unfold KeyCred.maxRentLimit KeyCred.incomeSignal
  rw [h1, h2, h3]

/-- Witness for C5 at a high score and a concrete all-absent record. -/
theorem zero_income_zero_rent_witness :
    KeyCred.maxRentLimit 900 noIncomeFeatures = 0 :=
  zero_income_zero_rent 900 noIncomeFeatures rfl rfl rfl

/-- C6: Holding all other features fixed, increasing the detected
stable-income signal never decreases the score, and the rent limit computed
at the improved score never decreases either. -/
theorem stable_income_monotone (f : KeyCred.FinancialFeatures) (a b : Nat)
    (hs : f.stableIncome = some a) (hab : a ≤ b) :
    KeyCred.computeScore f ≤
      KeyCred.computeScore { f with stableIncome := some b } ∧
    KeyCred.maxRentLimit (KeyCred.computeScore f) f ≤
      KeyCred.maxRentLimit
        (KeyCred.computeScore { f with stableIncome := some b })
        { f with stableIncome := some b } := by
  have h1 := score_mono_stable f a b hs hab
  exact ⟨h1, maxRentLimit_mono f a b _ _ hs hab h1⟩

/-- Witness for C6 at a concrete stable income raised from 60000 to 90000. -/
theorem stable_income_monotone_witness :
    KeyCred.computeScore stableFeatures ≤
      KeyCred.computeScore { stableFeatures with stableIncome := some 90000 } ∧
    KeyCred.maxRentLimit (KeyCred.computeScore stableFeatures) stableFeatures ≤
      KeyCred.maxRentLimit
        (KeyCred.computeScore { stableFeatures with stableIncome := some 90000 })
        { stableFeatures with stableIncome := some 90000 } :=
  stable_income_monotone stableFeatures 60000 90000 rfl (by norm_num)

/-- C7 counterexample: a file of type text/plain chosen via the file picker
is accepted into the upload state by onFileChange, with the error cleared,
refuting the claim that picker-chosen files are accepted only when their
type is application/pdf. -/
theorem filePicker_accepts_nonPdf :
    (Frontend.onFileChange (some txtFile) Frontend.initState).file = some txtFile ∧
    txtFile.fileType ≠ "application/pdf" ∧
    (Frontend.onFileChange (some txtFile) Frontend.initState).error = none :=
  ⟨rfl, by decide, rfl⟩

/-- C7 amended: dropped files are accepted only when their type is
application/pdf, otherwise an error is set and the selected file is
unchanged; a file chosen via the file picker is accepted whenever present,
regardless of its type; and at the modelled upload boundary an input whose
media type is not PDF is rejected before extraction. -/
theorem pdf_only_acceptance_amended (f : Frontend.FileInfo) (s : Frontend.UIState) :
    (f.fileType = "application/pdf" →
      Frontend.onDrop (some f) s =
        { s with dragging := false, file := some f, error := none }) ∧
    (f.fileType ≠ "application/pdf" →
      Frontend.onDrop (some f) s =
        { s with dragging := false,
                 error := some "Please drop a valid PDF file." }) ∧
    (Frontend.onDrop none s =
      { s with dragging := false,
               error := some "Please drop a valid PDF file." }) ∧
    (Frontend.onFileChange (some f) s = { s with file := some f, error := none }) ∧
    (∀ d : KeyCred.RawDocument,
      d.mediaType ≠ "application/pdf" → KeyCred.pipelineEntry d = none) := by
  refine ⟨?_, ?_, rfl, rfl, ?_⟩
  · intro h
    simp [Frontend.onDrop, h]
  · intro h
    simp [Frontend.onDrop, h]
  · intro d h
    simp [KeyCred.pipelineEntry, KeyCred.acceptUpload, h]

/-- Witness for the amended C7 at a PDF file, a text file and a document
with a non-PDF media type. -/
theorem pdf_only_acceptance_amended_witness :
    Frontend.onDrop (some pdfFile) Frontend.initState =
      { Frontend.initState with dragging := false, file := some pdfFile,
                                error := none } ∧
    Frontend.onDrop (some txtFile) Frontend.initState =
      { Frontend.initState with dragging := false,
                                error := some "Please drop a valid PDF file." } ∧
    KeyCred.pipelineEntry badMediaDoc = none :=
  ⟨(pdf_only_acceptance_amended pdfFile Frontend.initState).1 rfl,
   (pdf_only_acceptance_amended txtFile Frontend.initState).2.1 (by decide),
   (pdf_only_acceptance_amended txtFile Frontend.initState).2.2.2.2 badMediaDoc (by decide)⟩

/-- C8: the certificate-download action is reachable if and only if the
displayed result is approved; for an unapproved displayed result the UI
shows the 650-threshold notice and never initiates a certificate request. -/
theorem certificate_gating (s : Frontend.UIState) :
    (Frontend.certButtonShown s.result = true ↔
      ∃ r, s.result = some r ∧ r.is_approved = true) ∧
    (Frontend.certRequestInitiated s = true →
      ∃ r, s.result = some r ∧ r.is_approved = true) ∧
    (∀ r, s.result = some r → r.is_approved = false →
      Frontend.thresholdNoticeShown s.result = true ∧
      Frontend.certRequestInitiated s = false) := by
  refine ⟨?_, ?_, ?_⟩
  · cases h : s.result with
    | none => simp [Frontend.certButtonShown]
    | some r => simp [Frontend.certButtonShown]
  · intro h
    have hb : Frontend.certButtonShown s.result = true := by
      have := h
      unfold Frontend.certRequestInitiated at this
      exact (Bool.and_eq_true _ _).mp this |>.1
    cases hr : s.result with
    | none => rw [hr] at hb; simp [Frontend.certButtonShown] at hb
    | some r =>
      refine ⟨r, rfl, ?_⟩
      rw [hr] at hb
      simpa [Frontend.certButtonShown] using hb
  · intro r hr ha
    constructor
    · simp [Frontend.thresholdNoticeShown, hr, ha]
    · unfold Frontend.certRequestInitiated
      simp [Frontend.certButtonShown, hr, ha]

/-- Witness for C8 at a state with an approved result and a state with an
unapproved result. -/
theorem certificate_gating_witness :
    (∃ r, stApproved.result = some r ∧ r.is_approved = true) ∧
    (Frontend.thresholdNoticeShown stRejected.result = true ∧
      Frontend.certRequestInitiated stRejected = false) :=
  ⟨(certificate_gating stApproved).2.1 (by decide),
   (certificate_gating stRejected).2.2 rejectedResult rfl rfl⟩

/-- C9: with no file selected, handleUpload and handleCertificate return
immediately with no request and unchanged state, and the upload button is
disabled whenever no file is selected or an upload is in flight. -/
theorem no_file_no_request (s : Frontend.UIState) :
    (s.file = none →
      Frontend.handleUploadStart s = (s, false) ∧
      Frontend.handleCertificateStart s = (s, false)) ∧
    ((s.file = none ∨ s.uploading = true) → Frontend.uploadDisabled s = true) := by
  constructor
  · intro h
    constructor
    · unfold Frontend.handleUploadStart
      rw [h]
    · unfold Frontend.handleCertificateStart
      rw [h]
  · intro h
    cases h with
    | inl h => simp [Frontend.uploadDisabled, h]
    | inr h => simp [Frontend.uploadDisabled, h]

/-- Witness for C9 at the initial state, where no file is selected. -/
theorem no_file_no_request_witness :
    (Frontend.handleUploadStart Frontend.initState = (Frontend.initState, false) ∧
      Frontend.handleCertificateStart Frontend.initState = (Frontend.initState, false)) ∧
    Frontend.uploadDisabled Frontend.initState = true :=
  ⟨(no_file_no_request Frontend.initState).1 rfl,
   (no_file_no_request Frontend.initState).2 (Or.inl rfl)⟩

/-- C10: the ring color and rating badge are deterministic functions of the
score with breakpoints at 750 and 600, and every score of at least 600 and
below 650 is labelled Good Creditworthiness while failing the 650 approval
gate of the Eligibility Gate. -/
theorem ring_badge_breakpoints (s : Nat) :
    (Frontend.ringColor s = "#34d399" ↔ 750 ≤ s) ∧
    (Frontend.ringColor s = "#fbbf24" ↔ (600 ≤ s ∧ s < 750)) ∧
    (Frontend.ringColor s = "#f87171" ↔ s < 600) ∧
    (Frontend.ratingBadge s = "🌟 Excellent Creditworthiness" ↔ 750 ≤ s) ∧
    (Frontend.ratingBadge s = "👍 Good Creditworthiness" ↔ (600 ≤ s ∧ s < 750)) ∧
    (Frontend.ratingBadge s = "⚠️ Needs Improvement" ↔ s < 600) ∧
    (600 ≤ s → s < 650 →
      Frontend.ratingBadge s = "👍 Good Creditworthiness" ∧
      KeyCred.isApproved KeyCred.Status.completed s = false) := by
  unfold Frontend.ringColor Frontend.ratingBadge
  refine ⟨?_, ?_, ?_, ?_, ?_, ?_, ?_⟩
  · split_ifs with h1 h2 <;> simp_all
  · split_ifs with h1 h2 <;> simp_all
  · split_ifs with h1 h2 <;> simp_all
    omega
  · split_ifs with h1 h2 <;> simp_all
  · split_ifs with h1 h2 <;> simp_all
  · split_ifs with h1 h2 <;> simp_all
    omega
  · intro h6 h65
    have h75 : ¬ 750 ≤ s := by omega
    rw [if_neg h75, if_pos h6]
    refine ⟨rfl, ?_⟩
    simp [KeyCred.isApproved, KeyCred.APPROVAL_THRESHOLD]
    omega

/-- Witness for C10 at score 620: labelled Good while not approvable. -/
theorem ring_badge_breakpoints_witness :
    Frontend.ratingBadge 620 = "👍 Good Creditworthiness" ∧
    KeyCred.isApproved KeyCred.Status.completed 620 = false :=
  (ring_badge_breakpoints 620).2.2.2.2.2.2 (by norm_num) (by norm_num)
